import Mathlib

/-
Shallow embedding of the idea-management backend (server.js).

The server maps HTTP routes to SQL statements over four tables
(users, ideas, comments, feedback).  We model the database as lists of
rows plus the SERIAL counters, JS request-body values as Option String
(none = the JS value undefined / an absent field), and each route
handler as a pure function from the request and the database state to a
response (status code + JSON body) and the next state.

Conventions, mirroring the runtime semantics of the stack:
- JS truthiness on a body field: undefined and the empty string are
  falsy (model: jsTruthy).
- node-postgres serializes an undefined parameter as SQL NULL, so a
  column that is named in an INSERT with an undefined JS value is
  stored as NULL (model: the Option value is stored as given).
- SQL "colname = $n" with a NULL stored value does not match
  (model: equality on Option values against a `some` pattern).
- SERIAL primary keys are modelled by nextId counters in the state;
  generated ids are positive.
- ORDER BY created_at DESC is modelled by an insertion sort on the
  created_at key (sortByDesc).
-/

namespace IdeaMgmt

/-- Row of the users table (schema from the create_table_users handler:
id SERIAL, username TEXT UNIQUE NOT NULL, email TEXT UNIQUE NOT NULL,
password TEXT NOT NULL, name TEXT NOT NULL).  `password` stores the hash. -/
structure User where
  id : Nat
  username : String
  email : String
  password : String
  name : String
deriving Repr, DecidableEq

/-- Row of the ideas table (schema from the create_table_ideas handler:
id SERIAL, title TEXT NOT NULL, description TEXT, short_description TEXT,
area TEXT, status TEXT DEFAULT 'New', user_id INTEGER NOT NULL REFERENCES
users(id), created_at TIMESTAMP).  Nullable columns are Option. -/
structure Idea where
  id : Nat
  title : String
  description : Option String
  short_description : Option String
  area : Option String
  status : Option String
  user_id : Nat
  created_at : Nat
deriving Repr, DecidableEq

/-- Row of the comments table (schema from the create_table_comments handler:
id SERIAL, idea_id INTEGER NOT NULL, user_id INTEGER NOT NULL, username TEXT
NOT NULL, comment TEXT NOT NULL, created_at TIMESTAMP, parent_id INTEGER
REFERENCES comments(id) nullable). -/
structure Comment where
  id : Nat
  idea_id : Nat
  user_id : Nat
  username : String
  comment : String
  created_at : Nat
  parent_id : Option Nat
deriving Repr, DecidableEq

/-- The database state: the three tables the claims touch, plus the
SERIAL counters that produce fresh primary keys. -/
structure DBState where
  users : List User
  ideas : List Idea
  comments : List Comment
  nextUserId : Nat
  nextIdeaId : Nat
  nextCommentId : Nat
deriving Repr, DecidableEq

/-- JS truthiness of a request-body string field: `undefined` (none) and
the empty string are falsy, every other string is truthy. -/
def jsTruthy : Option String → Bool
  | none => false
  | some s => s ≠ ""

/-- JSON response bodies the modelled handlers produce. -/
inductive Body where
  | empty
  | msg (message : String)
  | success
  | token (t : String)
  | idea (i : Idea)
  | ideaOwner (i : Idea) (ownerName ownerUsername : String)
deriving Repr, DecidableEq

/-- An HTTP response: status code and JSON body. -/
structure Resp where
  status : Nat
  body : Body
deriving Repr, DecidableEq

/-- Insert a row into a list sorted descending by `key`, keeping it sorted. -/
def insertByKeyDesc {α : Type} (key : α → Nat) (a : α) : List α → List α
  | [] => [a]
  | x :: xs => if key x ≤ key a then a :: x :: xs else x :: insertByKeyDesc key a xs

/-- Model of ORDER BY key DESC: insertion sort, descending on `key`. -/
def sortByDesc {α : Type} (key : α → Nat) : List α → List α
  | [] => []
  | x :: xs => insertByKeyDesc key x (sortByDesc key xs)

theorem mem_insertByKeyDesc {α : Type} (key : α → Nat) (a b : α) (l : List α) :
    b ∈ insertByKeyDesc key a l ↔ b = a ∨ b ∈ l := by
  induction l with
  | nil => simp [insertByKeyDesc]
  | cons x xs ih =>
      simp only [insertByKeyDesc]
      by_cases h : key x ≤ key a
      · simp [h]
      · simp only [if_neg h, List.mem_cons, ih]
        tauto

theorem mem_sortByDesc {α : Type} (key : α → Nat) (b : α) (l : List α) :
    b ∈ sortByDesc key l ↔ b ∈ l := by
  induction l with
  | nil => simp [sortByDesc]
  | cons x xs ih =>
      simp only [sortByDesc, mem_insertByKeyDesc, List.mem_cons, ih]

/-- Registration handler, POST /api/register.  `hash` models bcrypt.hash
with cost 10 (a pure salt-free stand-in for the adaptive hash).
Mirrors server.js: required-field check, duplicate check on
username OR email, then hash and INSERT. -/
def register (username email password name : Option String)
    (hash : String → String) (s : DBState) : Resp × DBState :=
  if ¬ jsTruthy username ∨ ¬ jsTruthy email ∨ ¬ jsTruthy password ∨ ¬ jsTruthy name then
    (⟨400, Body.msg "All fields required."⟩, s)
  else
    let un := username.getD ""
    let em := email.getD ""
    let existsRows := s.users.filter (fun u => u.username = un ∨ u.email = em)
    if existsRows.length > 0 then
      (⟨400, Body.msg "Username or email taken."⟩, s)
    else
      let newUser : User :=
        { id := s.nextUserId, username := un, email := em,
          password := hash (password.getD ""), name := name.getD "" }
      (⟨201, Body.success⟩,
       { s with users := s.users ++ [newUser], nextUserId := s.nextUserId + 1 })

/-- Login handler, POST /api/login.  `compare` models bcrypt.compare and
`sign` models jwt.sign of the payload with the user id claim.
Mirrors server.js: required-field check, lookup by email, generic
"Invalid credentials." on both a missing user and a hash mismatch. -/
def login (email password : Option String)
    (compare : String → String → Bool) (sign : Nat → String)
    (s : DBState) : Resp :=
  if ¬ jsTruthy email ∨ ¬ jsTruthy password then
    ⟨400, Body.msg "Email & password required."⟩
  else
    let em := email.getD ""
    let rows := s.users.filter (fun u => u.email = em)
    match rows.head? with
    | none => ⟨400, Body.msg "Invalid credentials."⟩
    | some user =>
        if ¬ compare (password.getD "") user.password then
          ⟨400, Body.msg "Invalid credentials."⟩
        else
          ⟨200, Body.token (sign user.id)⟩

/-- Result row of GET /api/ideas: the idea columns joined with the
owner's id (aliased user_id, equal to the idea's user_id) and username. -/
structure IdeaListRow where
  id : Nat
  title : String
  description : Option String
  short_description : Option String
  area : Option String
  status : Option String
  created_at : Nat
  user_id : Nat
  username : String
deriving Repr, DecidableEq

/-- Result row of GET /api/my-ideas: the idea columns without any join. -/
structure MyIdeaRow where
  id : Nat
  title : String
  description : Option String
  short_description : Option String
  area : Option String
  status : Option String
  created_at : Nat
deriving Repr, DecidableEq

/-- Project an ideas-join-users pair onto the GET /api/ideas select list. -/
def ideaListRow (i : Idea) (u : User) : IdeaListRow :=
  { id := i.id, title := i.title, description := i.description,
    short_description := i.short_description, area := i.area,
    status := i.status, created_at := i.created_at,
    user_id := u.id, username := u.username }

/-- Project an idea onto the GET /api/my-ideas select list. -/
def myIdeaRow (i : Idea) : MyIdeaRow :=
  { id := i.id, title := i.title, description := i.description,
    short_description := i.short_description, area := i.area,
    status := i.status, created_at := i.created_at }

/-- GET /api/ideas: every idea joined with its owner, ORDER BY
created_at DESC.  Mirrors the SELECT ... FROM ideas i JOIN users u
ON i.user_id = u.id in server.js. -/
def listIdeas (s : DBState) : List IdeaListRow :=
  sortByDesc (fun r => r.created_at)
    (s.ideas.flatMap (fun i =>
      (s.users.filter (fun u => i.user_id = u.id)).map (fun u => ideaListRow i u)))

/-- GET /api/my-ideas: the requester's ideas, ORDER BY created_at DESC. -/
def myIdeas (reqUser : User) (s : DBState) : List MyIdeaRow :=
  sortByDesc (fun r => r.created_at)
    ((s.ideas.filter (fun i => i.user_id = reqUser.id)).map myIdeaRow)

/-- GET /api/ideas/:id: the idea joined with its owner (adding u.name and
u.username); 404 "Idea not found." when the join yields no row. -/
def getIdea (ideaId : Nat) (s : DBState) : Resp :=
  let rows := (s.ideas.filter (fun i => i.id = ideaId)).flatMap (fun i =>
    (s.users.filter (fun u => i.user_id = u.id)).map (fun u => (i, u)))
  match rows.head? with
  | none => ⟨404, Body.msg "Idea not found."⟩
  | some (i, u) => ⟨200, Body.ideaOwner i u.name u.username⟩

/-- Request body of POST /api/ideas (each field may be absent). -/
structure IdeaBody where
  title : Option String
  area : Option String
  description : Option String
  status : Option String
  short_description : Option String
deriving Repr, DecidableEq

/-- POST /api/ideas: requires a truthy title, then INSERTs one row naming
every column (title, description, short_description, area, status,
user_id, created_at).  An undefined body field is serialized by the pg
driver as NULL, so an omitted status is stored as NULL — the column is
named in the INSERT, hence the schema default 'New' is never applied. -/
def createIdea (reqUser : User) (b : IdeaBody) (now : Nat) (s : DBState) :
    Resp × DBState :=
  if ¬ jsTruthy b.title then (⟨400, Body.msg "Title required."⟩, s)
  else
    let row : Idea :=
      { id := s.nextIdeaId, title := b.title.getD "",
        description := b.description, short_description := b.short_description,
        area := b.area, status := b.status,
        user_id := reqUser.id, created_at := now }
    (⟨201, Body.success⟩,
     { s with ideas := s.ideas ++ [row], nextIdeaId := s.nextIdeaId + 1 })

/-- Request body of PATCH /api/ideas/:id (each field may be absent). -/
structure PatchBody where
  short_description : Option String
  description : Option String
  status : Option String
deriving Repr, DecidableEq

/-- The dynamic field list of the PATCH handler.  server.js destructures
each of short_description, description, status with a default of "",
then pushes the column whenever the destructured value is not
undefined — which, after the defaulting, it never is. -/
def updateFields (b : PatchBody) : List String :=
  let short_description : Option String := some (b.short_description.getD "")
  let description : Option String := some (b.description.getD "")
  let status : Option String := some (b.status.getD "")
  (if short_description.isSome then ["short_description"] else []) ++
  (if description.isSome then ["description"] else []) ++
  (if status.isSome then ["status"] else [])

/-- Apply the dynamically built SET clause to one row: each named column
is overwritten with the corresponding (defaulted) body value. -/
def applySet (fields : List String) (sd d st : String) (i : Idea) : Idea :=
  fields.foldl (fun acc f =>
    if f = "short_description" then { acc with short_description := some sd }
    else if f = "description" then { acc with description := some d }
    else if f = "status" then { acc with status := some st }
    else acc) i

/-- PATCH /api/ideas/:id: builds the field list, 400 when it is empty,
otherwise UPDATE ... WHERE id = :id RETURNING * and res.json(rows[0]) —
an empty body when no row matched (res.json of undefined).  The
authenticated requester is attached to the request but never consulted:
no ownership check. -/
def updateIdea (reqUser : User) (ideaId : Nat) (b : PatchBody) (s : DBState) :
    Resp × DBState :=
  let sd := b.short_description.getD ""
  let d := b.description.getD ""
  let st := b.status.getD ""
  let fields := updateFields b
  if fields.length = 0 then (⟨400, Body.msg "No fields to update."⟩, s)
  else
    let ideas2 := s.ideas.map (fun i => if i.id = ideaId then applySet fields sd d st i else i)
    let rows := ideas2.filter (fun i => i.id = ideaId)
    let s2 := { s with ideas := ideas2 }
    match rows.head? with
    | some r => (⟨200, Body.idea r⟩, s2)
    | none => (⟨200, Body.empty⟩, s2)

/-- DELETE /api/ideas/:id: loads the idea's user_id; when the idea is
absent or its owner differs from the requester, 403 "Not your idea.";
otherwise DELETE the row and answer success. -/
def deleteIdea (reqUser : User) (ideaId : Nat) (s : DBState) : Resp × DBState :=
  let existingRows := s.ideas.filter (fun i => i.id = ideaId)
  match existingRows.head? with
  | none => (⟨403, Body.msg "Not your idea."⟩, s)
  | some existing =>
      if existing.user_id ≠ reqUser.id then
        (⟨403, Body.msg "Not your idea."⟩, s)
      else
        (⟨200, Body.success⟩,
         { s with ideas := s.ideas.filter (fun i => ¬ i.id = ideaId) })

/-- JS truthiness of the loaded parent_id column: NULL (none) and 0 are
falsy, any other integer is truthy.  server.js branches on
`if (comment.parent_id)`. -/
def jsTruthyId : Option Nat → Bool
  | none => false
  | some n => n ≠ 0

/-- DELETE /api/comments/:id: loads the comment; 404 when absent, 403
when the requester is not the author.  A truthy parent_id (a reply)
deletes only the comment itself; otherwise it first DELETEs every
comment whose parent_id equals this id, then the comment itself. -/
def deleteComment (reqUser : User) (commentId : Nat) (s : DBState) :
    Resp × DBState :=
  let rows := s.comments.filter (fun c => c.id = commentId)
  match rows.head? with
  | none => (⟨404, Body.msg "Comment not found."⟩, s)
  | some c =>
      if c.user_id ≠ reqUser.id then
        (⟨403, Body.msg "Not your comment."⟩, s)
      else if jsTruthyId c.parent_id then
        (⟨200, Body.success⟩,
         { s with comments := s.comments.filter (fun k => ¬ k.id = commentId) })
      else
        let s1 := { s with comments := s.comments.filter (fun k => ¬ k.parent_id = some commentId) }
        let s2 := { s1 with comments := s1.comments.filter (fun k => ¬ k.id = commentId) }
        (⟨200, Body.success⟩, s2)

/-- The routes server.js registers on `app`, one constructor per handler. -/
inductive Route where
  | ping
  | register
  | login
  | me
  | ideasList
  | myIdeasList
  | ideaGet
  | ideaCreate
  | ideaUpdate
  | ideaDelete
  | commentCreate
  | commentsList
  | commentDelete
  | feedback
deriving Repr, DecidableEq

/-- What a handler does when one of its database queries rejects:
either it performs no query at all, or the rejection is caught inside
the handler and mapped to a response, or it escapes the handler
(the await is not wrapped in any try/catch). -/
inductive FailureBehavior where
  | noQuery
  | caught (r : Resp)
  | escapes
deriving Repr, DecidableEq

/-- Per-route failure propagation, read off the try/catch structure of
each handler in server.js.  Every handler with a try/catch funnels the
error into handleError, a 500 with "Server error.".  GET /api/me runs
no query.  GET /api/ping and POST /api/ideas await db.query outside any
try/catch, so a rejection escapes the handler. -/
def queryFailureBehavior : Route → FailureBehavior
  | Route.ping => FailureBehavior.escapes
  | Route.register => FailureBehavior.caught ⟨500, Body.msg "Server error."⟩
  | Route.login => FailureBehavior.caught ⟨500, Body.msg "Server error."⟩
  | Route.me => FailureBehavior.noQuery
  | Route.ideasList => FailureBehavior.caught ⟨500, Body.msg "Server error."⟩
  | Route.myIdeasList => FailureBehavior.caught ⟨500, Body.msg "Server error."⟩
  | Route.ideaGet => FailureBehavior.caught ⟨500, Body.msg "Server error."⟩
  | Route.ideaCreate => FailureBehavior.escapes
  | Route.ideaUpdate => FailureBehavior.caught ⟨500, Body.msg "Server error."⟩
  | Route.ideaDelete => FailureBehavior.caught ⟨500, Body.msg "Server error."⟩
  | Route.commentCreate => FailureBehavior.caught ⟨500, Body.msg "Server error."⟩
  | Route.commentsList => FailureBehavior.caught ⟨500, Body.msg "Server error."⟩
  | Route.commentDelete => FailureBehavior.caught ⟨500, Body.msg "Server error."⟩
  | Route.feedback => FailureBehavior.caught ⟨500, Body.msg "Server error."⟩

/-- The two identifiers route registrations are invoked on in server.js:
`app` (the express application, defined on line 3) and `api`
(referenced by the four create_table registrations, never defined). -/
inductive Receiver where
  | app
  | api
deriving Repr, DecidableEq

/-- Whether the receiver identifier is bound when the module body runs. -/
def definedRecv : Receiver → Bool
  | Receiver.app => true
  | Receiver.api => false

/-- One top-level statement of the module body that touches a receiver. -/
inductive LoadStep where
  | route (recv : Receiver) (method : String) (path : String)
  | use (recv : Receiver)
  | listen (recv : Receiver)
deriving Repr, DecidableEq

/-- The module body of server.js in source order: global middleware,
the fourteen app routes, the four create_table registrations on the
undefined identifier api, then app.listen and the 404/error fallbacks. -/
def serverModule : List LoadStep :=
  [LoadStep.use Receiver.app,
   LoadStep.use Receiver.app,
   LoadStep.use Receiver.app,
   LoadStep.route Receiver.app "GET" "/api/ping",
   LoadStep.route Receiver.app "POST" "/api/register",
   LoadStep.route Receiver.app "POST" "/api/login",
   LoadStep.route Receiver.app "GET" "/api/me",
   LoadStep.route Receiver.app "GET" "/api/ideas",
   LoadStep.route Receiver.app "GET" "/api/my-ideas",
   LoadStep.route Receiver.app "GET" "/api/ideas/:id",
   LoadStep.route Receiver.app "POST" "/api/ideas",
   LoadStep.route Receiver.app "PATCH" "/api/ideas/:id",
   LoadStep.route Receiver.app "DELETE" "/api/ideas/:id",
   LoadStep.route Receiver.app "POST" "/api/ideas/:id/comments",
   LoadStep.route Receiver.app "GET" "/api/ideas/:id/comments",
   LoadStep.route Receiver.app "DELETE" "/api/comments/:id",
   LoadStep.route Receiver.app "POST" "/api/feedback",
   LoadStep.route Receiver.api "GET" "/api/create_table_users",
   LoadStep.route Receiver.api "GET" "/api/create_table_ideas",
   LoadStep.route Receiver.api "GET" "/api/create_table_comments",
   LoadStep.route Receiver.api "GET" "/api/create_table_feedback",
   LoadStep.listen Receiver.app,
   LoadStep.use Receiver.app,
   LoadStep.use Receiver.app]

/-- Outcome of evaluating the module body: which method/path pairs got
registered, whether app.listen ran, and the uncaught load error if any. -/
structure LoadResult where
  registered : List (String × String)
  listening : Bool
  loadError : Option String
deriving Repr, DecidableEq

/-- Evaluate the module statements in order; referencing an unbound
identifier throws a ReferenceError, which aborts module evaluation. -/
def runLoad (listening : Bool) (acc : List (String × String)) :
    List LoadStep → LoadResult
  | [] => ⟨acc.reverse, listening, none⟩
  | LoadStep.route recv m p :: rest =>
      if definedRecv recv then runLoad listening ((m, p) :: acc) rest
      else ⟨acc.reverse, listening, some "ReferenceError: api is not defined"⟩
  | LoadStep.use recv :: rest =>
      if definedRecv recv then runLoad listening acc rest
      else ⟨acc.reverse, listening, some "ReferenceError: api is not defined"⟩
  | LoadStep.listen recv :: rest =>
      if definedRecv recv then runLoad true acc rest
      else ⟨acc.reverse, listening, some "ReferenceError: api is not defined"⟩

/-- The result of loading server.js. -/
def loadServer : LoadResult := runLoad false [] serverModule

/-- Status default of the ideas.status column in the create_table_ideas
schema: TEXT DEFAULT 'New'. -/
def ideasStatusDefault : String := "New"

theorem filter_map_update {α : Type} (p : α → Prop) [DecidablePred p]
    (f : α → α) (l : List α) (hf : ∀ a, p a → p (f a)) :
    (l.map (fun a => if p a then f a else a)).filter (fun a => p a) =
      (l.filter (fun a => p a)).map f := by
  induction l with
  | nil => rfl
  | cons x xs ih =>
      by_cases hx : p x
      · simp [hx, hf x hx, ih]
      · simp [hx, ih]

theorem map_update_id {α : Type} (p : α → Prop) [DecidablePred p]
    (f : α → α) (l : List α) (h : ∀ a ∈ l, ¬ p a) :
    l.map (fun a => if p a then f a else a) = l := by
  induction l with
  | nil => rfl
  | cons x xs ih =>
      have hx := h x (List.mem_cons_self x xs)
      simp [hx, ih (fun a ha => h a (List.mem_cons_of_mem x ha))]

/-- The row produced by the PATCH handler's SET clause on one idea. -/
def updRow (b : PatchBody) (i : Idea) : Idea :=
  applySet ["short_description", "description", "status"]
    (b.short_description.getD "") (b.description.getD "") (b.status.getD "") i

theorem updRow_eq (b : PatchBody) (i : Idea) :
    updRow b i =
      { i with short_description := some (b.short_description.getD ""),
               description := some (b.description.getD ""),
               status := some (b.status.getD "") } := rfl

/-- The ideas table after the PATCH handler's UPDATE statement. -/
def patchedIdeas (ideaId : Nat) (b : PatchBody) (s : DBState) : List Idea :=
  s.ideas.map (fun i => if i.id = ideaId then updRow b i else i)

/-- Unfolding of the PATCH handler: the field list is always the full
three-column list, so the handler always reaches the UPDATE. -/
theorem updateIdea_eq (u : User) (ideaId : Nat) (b : PatchBody) (s : DBState) :
    updateIdea u ideaId b s =
      match ((patchedIdeas ideaId b s).filter (fun i => i.id = ideaId)).head? with
      | some r => (⟨200, Body.idea r⟩, { s with ideas := patchedIdeas ideaId b s })
      | none => (⟨200, Body.empty⟩, { s with ideas := patchedIdeas ideaId b s }) := rfl

/-- C9: in the PATCH /api/ideas/:id handler, the BadRequest branch for an
empty field list is unreachable — the destructuring defaults make all
three fields defined, so the field list always has length 3 and the
handler never answers 400 "No fields to update.". -/
theorem update_empty_fields_unreachable (u : User) (ideaId : Nat)
    (b : PatchBody) (s : DBState) :
    (updateFields b).length = 3 ∧
    (updateIdea u ideaId b s).1 ≠ ⟨400, Body.msg "No fields to update."⟩ := by
  refine ⟨rfl, ?_⟩
  rw [updateIdea_eq]
  rcases hhead : ((patchedIdeas ideaId b s).filter (fun i => i.id = ideaId)).head? with _ | r <;>
    simp [hhead]

/-- C1: PATCH /api/ideas/:id on an existing idea performs no ownership
check: the response and the new state are identical for any two
requesters, the handler answers 200 with the updated row, and the
stored row now carries the (defaulted) body values of
short_description, description and status. -/
theorem update_idea_no_ownership (u : User) (ideaId : Nat) (b : PatchBody)
    (s : DBState) (i : Idea)
    (h : s.ideas.filter (fun j => j.id = ideaId) = [i]) :
    (∀ u1 u2 : User, updateIdea u1 ideaId b s = updateIdea u2 ideaId b s) ∧
    (updateIdea u ideaId b s).1 =
      ⟨200, Body.idea { i with short_description := some (b.short_description.getD ""),
                               description := some (b.description.getD ""),
                               status := some (b.status.getD "") }⟩ ∧
    (updateIdea u ideaId b s).2.ideas.filter (fun j => j.id = ideaId) =
      [{ i with short_description := some (b.short_description.getD ""),
                description := some (b.description.getD ""),
                status := some (b.status.getD "") }] := by
  have key : (patchedIdeas ideaId b s).filter (fun j => j.id = ideaId) = [updRow b i] := by
    unfold patchedIdeas
    rw [filter_map_update (fun j => j.id = ideaId) (updRow b) s.ideas
          (fun a ha => by simpa [updRow_eq] using ha)]
    rw [h]
    rfl
  have hres : updateIdea u ideaId b s =
      (⟨200, Body.idea (updRow b i)⟩, { s with ideas := patchedIdeas ideaId b s }) := by
    rw [updateIdea_eq, key]
    rfl
  refine ⟨fun u1 u2 => rfl, ?_, ?_⟩
  · rw [hres, updRow_eq]
  · rw [hres]
    simpa [updRow_eq] using key

/-- C10: PATCH /api/ideas/:id when no idea has the given id: the UPDATE
matches no row, rows[0] is undefined, and the handler answers 200 with
an empty body, leaving the state unchanged. -/
theorem update_idea_missing_id (u : User) (ideaId : Nat) (b : PatchBody)
    (s : DBState)
    (h : s.ideas.filter (fun j => j.id = ideaId) = []) :
    updateIdea u ideaId b s = (⟨200, Body.empty⟩, s) := by
  have hall : ∀ j ∈ s.ideas, ¬ j.id = ideaId := by
    rw [List.filter_eq_nil_iff] at h
    intro j hj
    simpa using h j hj
  have hmap : patchedIdeas ideaId b s = s.ideas := by
    unfold patchedIdeas
    exact map_update_id (fun j => j.id = ideaId) (updRow b) s.ideas hall
  rw [updateIdea_eq, hmap, h]
  rfl

/-- Witness for C1: user 2 patches idea 5 owned by user 1 and receives
200 with the updated row. -/
theorem update_idea_no_ownership_witness :
    (updateIdea ⟨2, "bob", "b@example.com", "h2", "Bob"⟩ 5
        ⟨some "sd", none, some "Done"⟩
        ⟨[⟨1, "alice", "a@example.com", "h1", "Alice"⟩,
          ⟨2, "bob", "b@example.com", "h2", "Bob"⟩],
         [⟨5, "T", none, none, none, some "New", 1, 10⟩], [], 3, 6, 1⟩).1 =
      ⟨200, Body.idea ⟨5, "T", some "", some "sd", none, some "Done", 1, 10⟩⟩ :=
  (update_idea_no_ownership ⟨2, "bob", "b@example.com", "h2", "Bob"⟩ 5
    ⟨some "sd", none, some "Done"⟩
    ⟨[⟨1, "alice", "a@example.com", "h1", "Alice"⟩,
      ⟨2, "bob", "b@example.com", "h2", "Bob"⟩],
     [⟨5, "T", none, none, none, some "New", 1, 10⟩], [], 3, 6, 1⟩
    ⟨5, "T", none, none, none, some "New", 1, 10⟩ (by decide)).2.1

/-- Witness for C10: patching the missing idea 9 answers 200 with an
empty body and leaves the state untouched. -/
theorem update_idea_missing_id_witness :
    updateIdea ⟨1, "alice", "a@example.com", "h1", "Alice"⟩ 9 ⟨none, none, none⟩
        ⟨[⟨1, "alice", "a@example.com", "h1", "Alice"⟩],
         [⟨5, "T", none, none, none, some "New", 1, 10⟩], [], 2, 6, 1⟩ =
      (⟨200, Body.empty⟩,
       ⟨[⟨1, "alice", "a@example.com", "h1", "Alice"⟩],
        [⟨5, "T", none, none, none, some "New", 1, 10⟩], [], 2, 6, 1⟩) :=
  update_idea_missing_id ⟨1, "alice", "a@example.com", "h1", "Alice"⟩ 9 ⟨none, none, none⟩
    ⟨[⟨1, "alice", "a@example.com", "h1", "Alice"⟩],
     [⟨5, "T", none, none, none, some "New", 1, 10⟩], [], 2, 6, 1⟩ (by decide)

theorem listIdeas_id_mem (s : DBState) (r : IdeaListRow) (hr : r ∈ listIdeas s) :
    ∃ i ∈ s.ideas, r.id = i.id := by
  unfold listIdeas at hr
  rw [mem_sortByDesc] at hr
  rcases List.mem_flatMap.mp hr with ⟨i, hi, hmem⟩
  rcases List.mem_map.mp hmem with ⟨v, hv, rfl⟩
  exact ⟨i, hi, rfl⟩

theorem myIdeas_id_mem (v : User) (s : DBState) (r : MyIdeaRow) (hr : r ∈ myIdeas v s) :
    ∃ i ∈ s.ideas, r.id = i.id := by
  unfold myIdeas at hr
  rw [mem_sortByDesc] at hr
  rcases List.mem_map.mp hr with ⟨i, hi, rfl⟩
  exact ⟨i, List.mem_of_mem_filter hi, rfl⟩

theorem getIdea_404 (ideaId : Nat) (s : DBState)
    (h : ∀ i ∈ s.ideas, ¬ i.id = ideaId) :
    getIdea ideaId s = ⟨404, Body.msg "Idea not found."⟩ := by
  unfold getIdea
  have hnil : s.ideas.filter (fun i => i.id = ideaId) = [] := by
    rw [List.filter_eq_nil_iff]
    intro a ha
    simpa using h a ha
  rw [hnil]
  rfl

/-- Unfolding of the DELETE /api/ideas/:id handler. -/
theorem deleteIdea_eq (u : User) (ideaId : Nat) (s : DBState) :
    deleteIdea u ideaId s =
      match (s.ideas.filter (fun i => i.id = ideaId)).head? with
      | none => (⟨403, Body.msg "Not your idea."⟩, s)
      | some existing =>
          if existing.user_id ≠ u.id then (⟨403, Body.msg "Not your idea."⟩, s)
          else (⟨200, Body.success⟩,
                { s with ideas := s.ideas.filter (fun i => ¬ i.id = ideaId) }) := rfl

/-- C5: DELETE /api/ideas/:id by a non-owner answers 403 and leaves the
state untouched; by the owner it answers success, and the idea appears
in no subsequent listing: not in GET /api/ideas, not in
GET /api/my-ideas for any requester, and GET /api/ideas/:id is 404. -/
theorem delete_idea_spec (u : User) (ideaId : Nat) (s : DBState) (i : Idea)
    (h : s.ideas.filter (fun j => j.id = ideaId) = [i]) :
    (i.user_id ≠ u.id → deleteIdea u ideaId s = (⟨403, Body.msg "Not your idea."⟩, s)) ∧
    (i.user_id = u.id →
      (deleteIdea u ideaId s).1 = ⟨200, Body.success⟩ ∧
      (∀ r ∈ listIdeas (deleteIdea u ideaId s).2, r.id ≠ ideaId) ∧
      (∀ v : User, ∀ r ∈ myIdeas v (deleteIdea u ideaId s).2, r.id ≠ ideaId) ∧
      getIdea ideaId (deleteIdea u ideaId s).2 = ⟨404, Body.msg "Idea not found."⟩) := by
  constructor
  · intro hne
    rw [deleteIdea_eq, h]
    simp [hne]
  · intro heq
    have hres : deleteIdea u ideaId s =
        (⟨200, Body.success⟩, { s with ideas := s.ideas.filter (fun j => ¬ j.id = ideaId) }) := by
      rw [deleteIdea_eq, h]
      simp [heq]
    have hallgone : ∀ j ∈ (deleteIdea u ideaId s).2.ideas, ¬ j.id = ideaId := by
      rw [hres]
      intro j hj
      simpa using (List.mem_filter.mp hj).2
    refine ⟨by rw [hres], ?_, ?_, getIdea_404 ideaId _ hallgone⟩
    · intro r hr
      rcases listIdeas_id_mem _ r hr with ⟨j, hj, hid⟩
      rw [hid]
      exact hallgone j hj
    · intro v r hr
      rcases myIdeas_id_mem v _ r hr with ⟨j, hj, hid⟩
      rw [hid]
      exact hallgone j hj

/-- Witness for C5: user 2 cannot delete idea 5 owned by user 1; user 1
can and the response is success. -/
theorem delete_idea_spec_witness :
    deleteIdea ⟨2, "bob", "b@example.com", "h2", "Bob"⟩ 5
        ⟨[⟨1, "alice", "a@example.com", "h1", "Alice"⟩,
          ⟨2, "bob", "b@example.com", "h2", "Bob"⟩],
         [⟨5, "T", none, none, none, some "New", 1, 10⟩], [], 3, 6, 1⟩ =
      (⟨403, Body.msg "Not your idea."⟩,
       ⟨[⟨1, "alice", "a@example.com", "h1", "Alice"⟩,
         ⟨2, "bob", "b@example.com", "h2", "Bob"⟩],
        [⟨5, "T", none, none, none, some "New", 1, 10⟩], [], 3, 6, 1⟩) ∧
    (deleteIdea ⟨1, "alice", "a@example.com", "h1", "Alice"⟩ 5
        ⟨[⟨1, "alice", "a@example.com", "h1", "Alice"⟩,
          ⟨2, "bob", "b@example.com", "h2", "Bob"⟩],
         [⟨5, "T", none, none, none, some "New", 1, 10⟩], [], 3, 6, 1⟩).1 =
      ⟨200, Body.success⟩ :=
  ⟨(delete_idea_spec ⟨2, "bob", "b@example.com", "h2", "Bob"⟩ 5
      ⟨[⟨1, "alice", "a@example.com", "h1", "Alice"⟩,
        ⟨2, "bob", "b@example.com", "h2", "Bob"⟩],
       [⟨5, "T", none, none, none, some "New", 1, 10⟩], [], 3, 6, 1⟩
      ⟨5, "T", none, none, none, some "New", 1, 10⟩ (by decide)).1 (by decide),
   ((delete_idea_spec ⟨1, "alice", "a@example.com", "h1", "Alice"⟩ 5
      ⟨[⟨1, "alice", "a@example.com", "h1", "Alice"⟩,
        ⟨2, "bob", "b@example.com", "h2", "Bob"⟩],
       [⟨5, "T", none, none, none, some "New", 1, 10⟩], [], 3, 6, 1⟩
      ⟨5, "T", none, none, none, some "New", 1, 10⟩ (by decide)).2 (by decide)).1⟩

/-- The comments table after the cascade branch: first the DELETE of the
replies (parent_id = cid), then the DELETE of the comment itself. -/
def cascadeComments (cid : Nat) (l : List Comment) : List Comment :=
  (l.filter (fun k => ¬ k.parent_id = some cid)).filter (fun k => ¬ k.id = cid)

/-- Unfolding of the DELETE /api/comments/:id handler. -/
theorem deleteComment_eq (u : User) (cid : Nat) (s : DBState) :
    deleteComment u cid s =
      match (s.comments.filter (fun c => c.id = cid)).head? with
      | none => (⟨404, Body.msg "Comment not found."⟩, s)
      | some c =>
          if c.user_id ≠ u.id then (⟨403, Body.msg "Not your comment."⟩, s)
          else if jsTruthyId c.parent_id then
            (⟨200, Body.success⟩,
             { s with comments := s.comments.filter (fun k => ¬ k.id = cid) })
          else
            (⟨200, Body.success⟩,
             { s with comments := cascadeComments cid s.comments }) := rfl

/-- C4: DELETE /api/comments/:id answers 404 when the id matches no
comment and 403 when the requester is not the author; for a top-level
comment (parent_id null) it deletes every comment whose parent_id
equals the id and then the comment itself, in that order, and for a
reply (parent_id non-null, hence a positive comment id by the
foreign-key/SERIAL well-formedness) it deletes only the comment itself. -/
theorem delete_comment_spec (u : User) (cid : Nat) (s : DBState)
    (hwf : ∀ c ∈ s.comments, c.parent_id ≠ some 0) :
    (s.comments.filter (fun c => c.id = cid) = [] →
       deleteComment u cid s = (⟨404, Body.msg "Comment not found."⟩, s)) ∧
    (∀ c : Comment, (s.comments.filter (fun k => k.id = cid)).head? = some c →
      (c.user_id ≠ u.id → deleteComment u cid s = (⟨403, Body.msg "Not your comment."⟩, s)) ∧
      (c.user_id = u.id → c.parent_id = none →
        deleteComment u cid s = (⟨200, Body.success⟩,
          { s with comments := cascadeComments cid s.comments })) ∧
      (c.user_id = u.id → c.parent_id ≠ none →
        deleteComment u cid s = (⟨200, Body.success⟩,
          { s with comments := s.comments.filter (fun k => ¬ k.id = cid) }))) := by
  constructor
  · intro h0
    rw [deleteComment_eq, h0]
    rfl
  · intro c hc
    have hcmem : c ∈ s.comments := by
      have : c ∈ s.comments.filter (fun k => k.id = cid) :=
        List.mem_of_mem_head? (by simp [hc])
      exact List.mem_of_mem_filter this
    refine ⟨?_, ?_, ?_⟩
    · intro hne
      rw [deleteComment_eq, hc]
      simp [hne]
    · intro heq hnone
      rw [deleteComment_eq, hc]
      simp [heq, jsTruthyId, hnone]
    · intro heq hpar
      rcases Option.ne_none_iff_exists'.mp hpar with ⟨n, hn⟩
      have hn0 : n ≠ 0 := by
        intro h0
        exact hwf c hcmem (by rw [hn, h0])
      rw [deleteComment_eq, hc]
      simp [heq, jsTruthyId, hn, hn0]

/-- Witness for C4: deleting top-level comment 1 (authored by user 1)
removes its reply 2 and itself; deleting reply 2 removes only itself;
a foreign id is 404 and a non-author is 403. -/
theorem delete_comment_spec_witness :
    deleteComment ⟨1, "alice", "a@example.com", "h1", "Alice"⟩ 1
        ⟨[⟨1, "alice", "a@example.com", "h1", "Alice"⟩],
         [], [⟨1, 5, 1, "alice", "hello", 10, none⟩,
              ⟨2, 5, 1, "alice", "reply", 11, some 1⟩], 2, 6, 3⟩ =
      (⟨200, Body.success⟩,
       ⟨[⟨1, "alice", "a@example.com", "h1", "Alice"⟩], [], [], 2, 6, 3⟩) ∧
    deleteComment ⟨1, "alice", "a@example.com", "h1", "Alice"⟩ 2
        ⟨[⟨1, "alice", "a@example.com", "h1", "Alice"⟩],
         [], [⟨1, 5, 1, "alice", "hello", 10, none⟩,
              ⟨2, 5, 1, "alice", "reply", 11, some 1⟩], 2, 6, 3⟩ =
      (⟨200, Body.success⟩,
       ⟨[⟨1, "alice", "a@example.com", "h1", "Alice"⟩],
        [], [⟨1, 5, 1, "alice", "hello", 10, none⟩], 2, 6, 3⟩) ∧
    deleteComment ⟨1, "alice", "a@example.com", "h1", "Alice"⟩ 7
        ⟨[⟨1, "alice", "a@example.com", "h1", "Alice"⟩],
         [], [⟨1, 5, 1, "alice", "hello", 10, none⟩], 2, 6, 3⟩ =
      (⟨404, Body.msg "Comment not found."⟩,
       ⟨[⟨1, "alice", "a@example.com", "h1", "Alice"⟩],
        [], [⟨1, 5, 1, "alice", "hello", 10, none⟩], 2, 6, 3⟩) ∧
    deleteComment ⟨2, "bob", "b@example.com", "h2", "Bob"⟩ 1
        ⟨[⟨1, "alice", "a@example.com", "h1", "Alice"⟩],
         [], [⟨1, 5, 1, "alice", "hello", 10, none⟩], 2, 6, 3⟩ =
      (⟨403, Body.msg "Not your comment."⟩,
       ⟨[⟨1, "alice", "a@example.com", "h1", "Alice"⟩],
        [], [⟨1, 5, 1, "alice", "hello", 10, none⟩], 2, 6, 3⟩) :=
  ⟨(((delete_comment_spec ⟨1, "alice", "a@example.com", "h1", "Alice"⟩ 1
      ⟨[⟨1, "alice", "a@example.com", "h1", "Alice"⟩],
       [], [⟨1, 5, 1, "alice", "hello", 10, none⟩,
            ⟨2, 5, 1, "alice", "reply", 11, some 1⟩], 2, 6, 3⟩
      (by decide)).2 ⟨1, 5, 1, "alice", "hello", 10, none⟩ (by decide)).2.1 rfl rfl),
   (((delete_comment_spec ⟨1, "alice", "a@example.com", "h1", "Alice"⟩ 2
      ⟨[⟨1, "alice", "a@example.com", "h1", "Alice"⟩],
       [], [⟨1, 5, 1, "alice", "hello", 10, none⟩,
            ⟨2, 5, 1, "alice", "reply", 11, some 1⟩], 2, 6, 3⟩
      (by decide)).2 ⟨2, 5, 1, "alice", "reply", 11, some 1⟩ (by decide)).2.2 rfl (by decide)),
   ((delete_comment_spec ⟨1, "alice", "a@example.com", "h1", "Alice"⟩ 7
      ⟨[⟨1, "alice", "a@example.com", "h1", "Alice"⟩],
       [], [⟨1, 5, 1, "alice", "hello", 10, none⟩], 2, 6, 3⟩
      (by decide)).1 (by decide)),
   (((delete_comment_spec ⟨2, "bob", "b@example.com", "h2", "Bob"⟩ 1
      ⟨[⟨1, "alice", "a@example.com", "h1", "Alice"⟩],
       [], [⟨1, 5, 1, "alice", "hello", 10, none⟩], 2, 6, 3⟩
      (by decide)).2 ⟨1, 5, 1, "alice", "hello", 10, none⟩ (by decide)).1 (by decide))⟩

/-- Unfolding of the POST /api/login handler. -/
theorem login_eq (email password : Option String)
    (compare : String → String → Bool) (sign : Nat → String) (s : DBState) :
    login email password compare sign s =
      if ¬ jsTruthy email ∨ ¬ jsTruthy password then
        ⟨400, Body.msg "Email & password required."⟩
      else
        match (s.users.filter (fun u => u.email = email.getD "")).head? with
        | none => ⟨400, Body.msg "Invalid credentials."⟩
        | some user =>
            if ¬ compare (password.getD "") user.password then
              ⟨400, Body.msg "Invalid credentials."⟩
            else
              ⟨200, Body.token (sign user.id)⟩ := rfl

/-- C7: a login attempt whose email matches no user and a login attempt
with a known email but a failing password comparison produce the same
response — status 400 with the generic "Invalid credentials." message —
for any hash comparison and token signing functions, so the failure
response does not reveal whether the email is registered. -/
theorem login_no_account_probe (e1 p1 e2 p2 : Option String)
    (cmp1 cmp2 : String → String → Bool) (sg1 sg2 : Nat → String)
    (s1 s2 : DBState) (w : User)
    (h1e : jsTruthy e1 = true) (h1p : jsTruthy p1 = true)
    (h2e : jsTruthy e2 = true) (h2p : jsTruthy p2 = true)
    (h1 : s1.users.filter (fun v => v.email = e1.getD "") = [])
    (h2 : (s2.users.filter (fun v => v.email = e2.getD "")).head? = some w)
    (hcmp : cmp2 (p2.getD "") w.password = false) :
    login e1 p1 cmp1 sg1 s1 = ⟨400, Body.msg "Invalid credentials."⟩ ∧
    login e2 p2 cmp2 sg2 s2 = ⟨400, Body.msg "Invalid credentials."⟩ ∧
    login e1 p1 cmp1 sg1 s1 = login e2 p2 cmp2 sg2 s2 := by
  have ha : login e1 p1 cmp1 sg1 s1 = ⟨400, Body.msg "Invalid credentials."⟩ := by
    rw [login_eq, if_neg (by simp [h1e, h1p]), h1]
    rfl
  have hb : login e2 p2 cmp2 sg2 s2 = ⟨400, Body.msg "Invalid credentials."⟩ := by
    rw [login_eq, if_neg (by simp [h2e, h2p]), h2]
    simp [hcmp]
  exact ⟨ha, hb, ha.trans hb.symm⟩

/-- Witness for C7: an unknown email and a known email with a wrong
password give byte-identical failure responses. -/
theorem login_no_account_probe_witness :
    login (some "ghost@example.com") (some "pw") (fun a b => a = b) (fun n => toString n)
        ⟨[⟨1, "alice", "a@example.com", "hash1", "Alice"⟩], [], [], 2, 1, 1⟩ =
      ⟨400, Body.msg "Invalid credentials."⟩ ∧
    login (some "a@example.com") (some "wrong") (fun a b => a = b) (fun n => toString n)
        ⟨[⟨1, "alice", "a@example.com", "hash1", "Alice"⟩], [], [], 2, 1, 1⟩ =
      ⟨400, Body.msg "Invalid credentials."⟩ :=
  ⟨(login_no_account_probe (some "ghost@example.com") (some "pw")
      (some "a@example.com") (some "wrong")
      (fun a b => a = b) (fun a b => a = b) (fun n => toString n) (fun n => toString n)
      ⟨[⟨1, "alice", "a@example.com", "hash1", "Alice"⟩], [], [], 2, 1, 1⟩
      ⟨[⟨1, "alice", "a@example.com", "hash1", "Alice"⟩], [], [], 2, 1, 1⟩
      ⟨1, "alice", "a@example.com", "hash1", "Alice"⟩
      rfl rfl rfl rfl (by decide) (by decide) (by decide)).1,
   (login_no_account_probe (some "ghost@example.com") (some "pw")
      (some "a@example.com") (some "wrong")
      (fun a b => a = b) (fun a b => a = b) (fun n => toString n) (fun n => toString n)
      ⟨[⟨1, "alice", "a@example.com", "hash1", "Alice"⟩], [], [], 2, 1, 1⟩
      ⟨[⟨1, "alice", "a@example.com", "hash1", "Alice"⟩], [], [], 2, 1, 1⟩
      ⟨1, "alice", "a@example.com", "hash1", "Alice"⟩
      rfl rfl rfl rfl (by decide) (by decide) (by decide)).2.1⟩

/-- The row the registration handler INSERTs on success. -/
def registeredUser (username email password name : Option String)
    (hash : String → String) (s : DBState) : User :=
  { id := s.nextUserId, username := username.getD "", email := email.getD "",
    password := hash (password.getD ""), name := name.getD "" }

/-- Unfolding of the POST /api/register handler. -/
theorem register_eq (username email password name : Option String)
    (hash : String → String) (s : DBState) :
    register username email password name hash s =
      if ¬ jsTruthy username ∨ ¬ jsTruthy email ∨ ¬ jsTruthy password ∨ ¬ jsTruthy name then
        (⟨400, Body.msg "All fields required."⟩, s)
      else if (s.users.filter (fun u =>
          u.username = username.getD "" ∨ u.email = email.getD "")).length > 0 then
        (⟨400, Body.msg "Username or email taken."⟩, s)
      else
        (⟨201, Body.success⟩,
         { s with users := s.users ++ [registeredUser username email password name hash s],
                  nextUserId := s.nextUserId + 1 }) := rfl

/-- C8: POST /api/register answers 400 when any of username, email,
password, name is falsy; 400 "taken" when some existing user has the
same username or email; in both failure cases the state is unchanged.
Otherwise it appends exactly one user row whose password is the hash of
the submitted password, bumps the id counter, and answers 201 with a
body that carries no token. -/
theorem register_spec (username email password name : Option String)
    (hash : String → String) (s : DBState) :
    ((¬ jsTruthy username ∨ ¬ jsTruthy email ∨ ¬ jsTruthy password ∨ ¬ jsTruthy name) →
       register username email password name hash s =
         (⟨400, Body.msg "All fields required."⟩, s)) ∧
    (jsTruthy username → jsTruthy email → jsTruthy password → jsTruthy name →
      (s.users.filter (fun v => v.username = username.getD "" ∨ v.email = email.getD "") ≠ [] →
         register username email password name hash s =
           (⟨400, Body.msg "Username or email taken."⟩, s)) ∧
      (s.users.filter (fun v => v.username = username.getD "" ∨ v.email = email.getD "") = [] →
         register username email password name hash s =
           (⟨201, Body.success⟩,
            { s with users := s.users ++ [registeredUser username email password name hash s],
                     nextUserId := s.nextUserId + 1 }) ∧
         ∀ t : String, (register username email password name hash s).1.body ≠ Body.token t)) := by
  constructor
  · intro hmiss
    rw [register_eq, if_pos hmiss]
  · intro htu hte htp htn
    constructor
    · intro hdup
      rw [register_eq, if_neg (by simp [htu, hte, htp, htn]),
          if_pos (List.length_pos.mpr hdup)]
    · intro hemp
      have hres : register username email password name hash s =
          (⟨201, Body.success⟩,
           { s with users := s.users ++ [registeredUser username email password name hash s],
                    nextUserId := s.nextUserId + 1 }) := by
        rw [register_eq, if_neg (by simp [htu, hte, htp, htn]),
            if_neg (by rw [hemp]; decide)]
      refine ⟨hres, ?_⟩
      intro t
      rw [hres]
      simp

/-- Witness for C8: a missing name is 400, re-using alice's email is 400
"taken" (state untouched in both), and a fresh registration appends
exactly one hashed row and returns 201 with no token. -/
theorem register_spec_witness :
    register (some "carol") (some "c@example.com") (some "pw") none
        (fun p => String.append "H" p)
        ⟨[⟨1, "alice", "a@example.com", "H1", "Alice"⟩], [], [], 2, 1, 1⟩ =
      (⟨400, Body.msg "All fields required."⟩,
       ⟨[⟨1, "alice", "a@example.com", "H1", "Alice"⟩], [], [], 2, 1, 1⟩) ∧
    register (some "carol") (some "a@example.com") (some "pw") (some "Carol")
        (fun p => String.append "H" p)
        ⟨[⟨1, "alice", "a@example.com", "H1", "Alice"⟩], [], [], 2, 1, 1⟩ =
      (⟨400, Body.msg "Username or email taken."⟩,
       ⟨[⟨1, "alice", "a@example.com", "H1", "Alice"⟩], [], [], 2, 1, 1⟩) ∧
    register (some "carol") (some "c@example.com") (some "pw") (some "Carol")
        (fun p => String.append "H" p)
        ⟨[⟨1, "alice", "a@example.com", "H1", "Alice"⟩], [], [], 2, 1, 1⟩ =
      (⟨201, Body.success⟩,
       ⟨[⟨1, "alice", "a@example.com", "H1", "Alice"⟩,
         ⟨2, "carol", "c@example.com", "Hpw", "Carol"⟩], [], [], 3, 1, 1⟩) :=
  ⟨(register_spec (some "carol") (some "c@example.com") (some "pw") none
      (fun p => String.append "H" p)
      ⟨[⟨1, "alice", "a@example.com", "H1", "Alice"⟩], [], [], 2, 1, 1⟩).1
      (by simp [jsTruthy]),
   ((register_spec (some "carol") (some "a@example.com") (some "pw") (some "Carol")
      (fun p => String.append "H" p)
      ⟨[⟨1, "alice", "a@example.com", "H1", "Alice"⟩], [], [], 2, 1, 1⟩).2
      (by decide) (by decide) (by decide) (by decide)).1 (by decide),
   (((register_spec (some "carol") (some "c@example.com") (some "pw") (some "Carol")
      (fun p => String.append "H" p)
      ⟨[⟨1, "alice", "a@example.com", "H1", "Alice"⟩], [], [], 2, 1, 1⟩).2
      (by decide) (by decide) (by decide) (by decide)).2 (by decide)).1⟩

/-- C3: creating an idea with title "Foo" and the status field omitted,
then fetching it, answers 200 with the creator's id and username
attached — but the stored and returned status is NULL, not the schema
default "New": the INSERT names the status column and the pg driver
serializes the undefined value as NULL, so the column default never
applies. -/
theorem create_idea_omitted_status_is_null :
    (createIdea ⟨1, "alice", "a@example.com", "h1", "Alice"⟩
        ⟨some "Foo", none, none, none, none⟩ 100
        ⟨[⟨1, "alice", "a@example.com", "h1", "Alice"⟩], [], [], 2, 1, 1⟩).1 =
      ⟨201, Body.success⟩ ∧
    getIdea 1 (createIdea ⟨1, "alice", "a@example.com", "h1", "Alice"⟩
        ⟨some "Foo", none, none, none, none⟩ 100
        ⟨[⟨1, "alice", "a@example.com", "h1", "Alice"⟩], [], [], 2, 1, 1⟩).2 =
      ⟨200, Body.ideaOwner ⟨1, "Foo", none, none, none, none, 1, 100⟩ "Alice" "alice"⟩ ∧
    (⟨1, "Foo", none, none, none, none, 1, 100⟩ : Idea).status ≠ some ideasStatusDefault := by
  decide

/-- C2: evaluating server.js aborts with a ReferenceError at the first
create_table registration because the identifier api is never defined:
none of the four /api/create_table_* routes is registered, and
app.listen is never reached, so the endpoints the spec describes do not
exist in the code as written. -/
theorem create_table_routes_never_registered :
    loadServer.loadError = some "ReferenceError: api is not defined" ∧
    loadServer.listening = false ∧
    ("GET", "/api/create_table_users") ∉ loadServer.registered ∧
    ("GET", "/api/create_table_ideas") ∉ loadServer.registered ∧
    ("GET", "/api/create_table_comments") ∉ loadServer.registered ∧
    ("GET", "/api/create_table_feedback") ∉ loadServer.registered := by
  decide

/-- Counterexample for C6: the POST /api/ideas handler awaits its INSERT
outside any try/catch, so it is not the case that every route handler
catches its own database failures. -/
theorem handler_failure_escapes_counterexample :
    ¬ (∀ r : Route, queryFailureBehavior r ≠ FailureBehavior.escapes) := by
  intro h
  exact h Route.ideaCreate rfl

/-- C6 (amended): every route handler except GET /api/ping and
POST /api/ideas either performs no database query or catches its own
query failures and maps them to the 500 "Server error." response; in
GET /api/ping and POST /api/ideas the awaited query sits outside any
try/catch and a rejection escapes the handler. -/
theorem handlers_catch_failures_except_two (r : Route)
    (hping : r ≠ Route.ping) (hcreate : r ≠ Route.ideaCreate) :
    queryFailureBehavior r = FailureBehavior.noQuery ∨
    queryFailureBehavior r = FailureBehavior.caught ⟨500, Body.msg "Server error."⟩ := by
  cases r
  case ping => exact absurd rfl hping
  case ideaCreate => exact absurd rfl hcreate
  case me => exact Or.inl rfl
  all_goals exact Or.inr rfl

/-- Witness for C6 (amended): the login handler maps a query failure to
the generic 500 response. -/
theorem handlers_catch_failures_except_two_witness :
    queryFailureBehavior Route.login = FailureBehavior.noQuery ∨
    queryFailureBehavior Route.login = FailureBehavior.caught ⟨500, Body.msg "Server error."⟩ :=
  handlers_catch_failures_except_two Route.login (by decide) (by decide)

end IdeaMgmt
